import Mathlib

/-!
Shallow embedding of src/flask_authentic/account/views.py.

The file models the account-management view layer: the configuration
lookup mixin, the seven view classes with their class attributes
(request_object_cls, usecase_cls, decorators), and the five post
handlers defined in this layer.  External collaborators (the protean
framework, the authentic use-case layer, Flask) are abstracted:
perform_import is an arbitrary function from class paths, and
_process_request is an arbitrary state-passing function supplied as a
parameter, so theorems quantify over every possible behaviour of the
external layers.
-/

namespace FlaskAuthentic

/-- An account entity, owned by the external layer.  Only the id is read
by this layer (in ChangePasswordResource.post); the email field stands
for the rest of the entity state. -/
structure Account where
  id : Nat
  email : String
deriving DecidableEq, Repr

/-- A Python value appearing in a request or forwarded payload mapping:
strings, numbers, nested dict payloads, or a whole account object (the
logout view forwards context.account itself). -/
inductive Value where
  | str : String → Value
  | nat : Nat → Value
  | obj : List (String × Value) → Value
  | acc : Account → Value

/-- A payload dict, as an association list of string keys to values. -/
abbrev Payload := List (String × Value)

/-- An entity instance returned by a use case (protean Entity).  Its
to_dict serialization returns its field mapping. -/
structure Entity where
  fields : List (String × Value)

/-- Entity.to_dict from the protean framework: serialize to a dict. -/
def Entity.to_dict (e : Entity) : List (String × Value) :=
  e.fields

/-- The authenticated request context (protean.context.context). -/
structure Context where
  account : Account
deriving DecidableEq, Repr

/-- The incoming flask request; this layer only reads its payload. -/
structure Request where
  payload : Payload

/-- The active configuration entries read by AccountViewMixin.  none
models an unset entry; some "" models a set-but-falsy entry. -/
structure Config where
  ACCOUNT_SCHEMA_CLS : Option String
  ACCOUNT_SERIALIZER_CLS : Option String
deriving DecidableEq, Repr

/-- The protean ConfigurationError carrying its message. -/
structure ConfigurationError where
  message : String
deriving DecidableEq, Repr

/-- The external world state that the use-case layer may mutate:
account entities, tokens, and the configuration.  The view layer
threads it through the single use-case invocation. -/
structure World where
  accounts : List Account
  tokens : List String
  config : Config
deriving DecidableEq, Repr

/-- Python truthiness of an optional config string: false for an unset
entry and for the empty string. -/
def py_truthy : Option String → Bool
  | none => false
  | some s => !s.isEmpty

/-- The use-case classes imported from authentic.usecases.core. -/
inductive UseCaseCls where
  | CreateAccountUseCase
  | UpdateAccountUseCase
  | ChangeAccountPasswordUseCase
  | SendResetPasswordEmailUsecase
  | ResetPasswordUsecase
  | LoginUseCase
  | LogoutUseCase
deriving DecidableEq, Repr, Fintype

/-- The request-object classes imported from authentic.usecases.core. -/
inductive RequestObjectCls where
  | CreateAccountRequestObject
  | UpdateAccountRequestObject
  | ChangeAccountPasswordRequestObject
  | SendResetPasswordEmailRequestObject
  | ResetPasswordRequestObject
  | LoginRequestObject
  | LogoutRequestObject
deriving DecidableEq, Repr, Fintype

/-- The response of a use-case invocation: either a protean Entity or
some other value. -/
inductive UCResponse where
  | entity : Entity → UCResponse
  | raw : Value → UCResponse

/-- The type of the inherited _process_request method: it receives the
use-case class, the request-object class, the payload and the
no_serialization flag, acts on the world, and produces a response and
the successor world.  It is external to this layer, so the views are
parametric in it. -/
abbrev ProcessRequest :=
  UseCaseCls → RequestObjectCls → Payload → Bool → World → UCResponse × World

/-- The view decorators used in this layer. -/
inductive Decorator where
  | is_authenticated
deriving DecidableEq, Repr, Fintype

namespace AccountViewMixin

/-- AccountViewMixin.get_schema_cls: raise ConfigurationError when
ACCOUNT_SCHEMA_CLS is not truthy, else perform_import on it.
perform_import is the external import function, passed as imp. -/
def get_schema_cls {α : Type} (imp : String → α) (cfg : Config) :
    Except ConfigurationError α :=
  if py_truthy cfg.ACCOUNT_SCHEMA_CLS then
    Except.ok (imp (cfg.ACCOUNT_SCHEMA_CLS.getD ""))
  else
    Except.error ⟨"`ACCOUNT_SCHEMA_CLS` has not been set in the config."⟩

/-- AccountViewMixin.get_serializer_cls: raise ConfigurationError when
ACCOUNT_SERIALIZER_CLS is not truthy, else perform_import on it. -/
def get_serializer_cls {α : Type} (imp : String → α) (cfg : Config) :
    Except ConfigurationError α :=
  if py_truthy cfg.ACCOUNT_SERIALIZER_CLS then
    Except.ok (imp (cfg.ACCOUNT_SERIALIZER_CLS.getD ""))
  else
    Except.error ⟨"`ACCOUNT_SERIALIZER_CLS` has not been set in the config."⟩

end AccountViewMixin

/-- HTTP verbs, used to record which handler methods a view class body
defines in this layer. -/
inductive HttpMethod where
  | get
  | post
  | put
  | patch
  | delete
deriving DecidableEq, Repr, Fintype

namespace CreateAccountResource

/-- CreateAccountResource.request_object_cls class attribute. -/
def request_object_cls : RequestObjectCls :=
  RequestObjectCls.CreateAccountRequestObject

/-- CreateAccountResource.usecase_cls class attribute. -/
def usecase_cls : UseCaseCls :=
  UseCaseCls.CreateAccountUseCase

/-- CreateAccountResource.decorators class attribute. -/
def decorators : List Decorator :=
  [Decorator.is_authenticated]

end CreateAccountResource

namespace UpdateAccountResource

/-- UpdateAccountResource.request_object_cls class attribute. -/
def request_object_cls : RequestObjectCls :=
  RequestObjectCls.UpdateAccountRequestObject

/-- UpdateAccountResource.usecase_cls class attribute. -/
def usecase_cls : UseCaseCls :=
  UseCaseCls.UpdateAccountUseCase

/-- UpdateAccountResource.decorators class attribute. -/
def decorators : List Decorator :=
  [Decorator.is_authenticated]

end UpdateAccountResource

namespace ChangePasswordResource

/-- ChangePasswordResource.request_object_cls class attribute. -/
def request_object_cls : RequestObjectCls :=
  RequestObjectCls.ChangeAccountPasswordRequestObject

/-- ChangePasswordResource.usecase_cls class attribute. -/
def usecase_cls : UseCaseCls :=
  UseCaseCls.ChangeAccountPasswordUseCase

/-- ChangePasswordResource.decorators class attribute. -/
def decorators : List Decorator :=
  [Decorator.is_authenticated]

/-- The local payload mapping built by ChangePasswordResource.post:
identifier from the authenticated context account, data from the
request payload. -/
def payload_of (ctx : Context) (req : Request) : Payload :=
  [("identifier", Value.nat ctx.account.id),
   ("data", Value.obj req.payload)]

/-- ChangePasswordResource.post: build the payload and invoke
_process_request with no_serialization=True, returning its result. -/
def post (proc : ProcessRequest) (ctx : Context) (req : Request)
    (w : World) : UCResponse × World :=
  proc usecase_cls request_object_cls (payload_of ctx req) true w

/-- Handler methods defined in the class body. -/
def defined_methods : List HttpMethod :=
  [HttpMethod.post]

end ChangePasswordResource

namespace SendResetPasswordEmailResource

/-- SendResetPasswordEmailResource.request_object_cls class attribute. -/
def request_object_cls : RequestObjectCls :=
  RequestObjectCls.SendResetPasswordEmailRequestObject

/-- SendResetPasswordEmailResource.usecase_cls class attribute. -/
def usecase_cls : UseCaseCls :=
  UseCaseCls.SendResetPasswordEmailUsecase

/-- SendResetPasswordEmailResource defines no decorators attribute in
its class body; the inherited flask View.decorators default is empty. -/
def decorators : List Decorator :=
  []

/-- SendResetPasswordEmailResource.post: invoke _process_request on
request.payload directly with no_serialization=True. -/
def post (proc : ProcessRequest) (req : Request) (w : World) :
    UCResponse × World :=
  proc usecase_cls request_object_cls req.payload true w

/-- Handler methods defined in the class body. -/
def defined_methods : List HttpMethod :=
  [HttpMethod.post]

end SendResetPasswordEmailResource

namespace ResetPasswordResource

/-- ResetPasswordResource.request_object_cls class attribute. -/
def request_object_cls : RequestObjectCls :=
  RequestObjectCls.ResetPasswordRequestObject

/-- ResetPasswordResource.usecase_cls class attribute. -/
def usecase_cls : UseCaseCls :=
  UseCaseCls.ResetPasswordUsecase

/-- ResetPasswordResource defines no decorators attribute in its class
body; the inherited flask View.decorators default is empty. -/
def decorators : List Decorator :=
  []

/-- The local payload mapping built by ResetPasswordResource.post:
token from the path parameter, data from the request payload. -/
def payload_of (token : String) (req : Request) : Payload :=
  [("token", Value.str token),
   ("data", Value.obj req.payload)]

/-- ResetPasswordResource.post: build the payload from the token path
parameter and invoke _process_request with no_serialization=True. -/
def post (proc : ProcessRequest) (token : String) (req : Request)
    (w : World) : UCResponse × World :=
  proc usecase_cls request_object_cls (payload_of token req) true w

/-- Handler methods defined in the class body. -/
def defined_methods : List HttpMethod :=
  [HttpMethod.post]

end ResetPasswordResource

namespace LoginResource

/-- LoginResource.request_object_cls class attribute. -/
def request_object_cls : RequestObjectCls :=
  RequestObjectCls.LoginRequestObject

/-- LoginResource.usecase_cls class attribute. -/
def usecase_cls : UseCaseCls :=
  UseCaseCls.LoginUseCase

/-- LoginResource defines no decorators attribute in its class body;
the inherited flask View.decorators default is empty. -/
def decorators : List Decorator :=
  []

/-- LoginResource.post: invoke _process_request on request.payload
with no_serialization=True; if the response is an Entity instance,
return response.to_dict(), otherwise return the response unchanged. -/
def post (proc : ProcessRequest) (req : Request) (w : World) :
    (List (String × Value) ⊕ UCResponse) × World :=
  match proc usecase_cls request_object_cls req.payload true w with
  | (UCResponse.entity e, w2) => (Sum.inl (Entity.to_dict e), w2)
  | (response, w2) => (Sum.inr response, w2)

/-- Handler methods defined in the class body. -/
def defined_methods : List HttpMethod :=
  [HttpMethod.post]

end LoginResource

namespace LogoutResource

/-- LogoutResource.request_object_cls class attribute. -/
def request_object_cls : RequestObjectCls :=
  RequestObjectCls.LogoutRequestObject

/-- LogoutResource.usecase_cls class attribute. -/
def usecase_cls : UseCaseCls :=
  UseCaseCls.LogoutUseCase

/-- LogoutResource.decorators class attribute. -/
def decorators : List Decorator :=
  [Decorator.is_authenticated]

/-- LogoutResource.post: invoke _process_request on the payload
mapping holding the whole context account, with
no_serialization=True. -/
def post (proc : ProcessRequest) (ctx : Context) (w : World) :
    UCResponse × World :=
  proc usecase_cls request_object_cls
    [("account", Value.acc ctx.account)] true w

/-- Handler methods defined in the class body. -/
def defined_methods : List HttpMethod :=
  [HttpMethod.post]

end LogoutResource

/-- The seven view classes of this layer, for quantifying over the
layer as a whole. -/
inductive ViewCls where
  | create
  | update
  | changePassword
  | sendResetPasswordEmail
  | resetPassword
  | login
  | logout
deriving DecidableEq, Repr, Fintype

/-- The decorators class attribute of each view class. -/
def decoratorsOf : ViewCls → List Decorator
  | ViewCls.create => CreateAccountResource.decorators
  | ViewCls.update => UpdateAccountResource.decorators
  | ViewCls.changePassword => ChangePasswordResource.decorators
  | ViewCls.sendResetPasswordEmail => SendResetPasswordEmailResource.decorators
  | ViewCls.resetPassword => ResetPasswordResource.decorators
  | ViewCls.login => LoginResource.decorators
  | ViewCls.logout => LogoutResource.decorators

/-- A sample process function standing in for an external use-case
layer that returns a constant raw value and leaves the world
unchanged. -/
def proc_pure : ProcessRequest :=
  fun _ _ _ _ w => (UCResponse.raw (Value.nat 0), w)

/-- A sample process function standing in for an external use-case
layer that returns an Entity and leaves the world unchanged. -/
def proc_entity : ProcessRequest :=
  fun _ _ _ _ w => (UCResponse.entity ⟨[("id", Value.nat 7)]⟩, w)

/-- A sample authenticated context. -/
def ctx0 : Context :=
  ⟨⟨1, "user@example.com"⟩⟩

/-- A sample request. -/
def req0 : Request :=
  ⟨[("password", Value.str "pw")]⟩

/-- A sample world. -/
def w0 : World :=
  ⟨[⟨1, "user@example.com"⟩], ["tok"], ⟨none, none⟩⟩

/-- C1: for every configuration state, get_schema_cls raises a
ConfigurationError exactly when ACCOUNT_SCHEMA_CLS is absent (unset or
falsy), get_serializer_cls raises one exactly when
ACCOUNT_SERIALIZER_CLS is absent, and when the respective value is set
each method returns the class imported from that path without raising
in this layer. -/
theorem config_error_iff_cls_absent {α : Type} (imp : String → α)
    (cfg : Config) :
    ((∃ e, AccountViewMixin.get_schema_cls imp cfg = Except.error e) ↔
      py_truthy cfg.ACCOUNT_SCHEMA_CLS = false) ∧
    ((∃ e, AccountViewMixin.get_serializer_cls imp cfg = Except.error e) ↔
      py_truthy cfg.ACCOUNT_SERIALIZER_CLS = false) ∧
    (∀ s, cfg.ACCOUNT_SCHEMA_CLS = some s →
      py_truthy cfg.ACCOUNT_SCHEMA_CLS = true →
      AccountViewMixin.get_schema_cls imp cfg = Except.ok (imp s)) ∧
    (∀ s, cfg.ACCOUNT_SERIALIZER_CLS = some s →
      py_truthy cfg.ACCOUNT_SERIALIZER_CLS = true →
      AccountViewMixin.get_serializer_cls imp cfg = Except.ok (imp s)) := by
  unfold AccountViewMixin.get_schema_cls AccountViewMixin.get_serializer_cls
  refine ⟨?_, ?_, ?_, ?_⟩
  · by_cases h : py_truthy cfg.ACCOUNT_SCHEMA_CLS <;> simp [h]
  · by_cases h : py_truthy cfg.ACCOUNT_SERIALIZER_CLS <;> simp [h]
  · intro s hs ht
    rw [hs] at ht
    simp [hs, ht]
  · intro s hs ht
    rw [hs] at ht
    simp [hs, ht]

/-- C1 witness: with schema class set and serializer class unset, the
schema lookup imports the configured path and the serializer lookup
errors. -/
theorem config_error_iff_cls_absent_witness :
    AccountViewMixin.get_schema_cls (fun s => s)
      ⟨some "app.schemas.AccountSchema", none⟩ =
      Except.ok "app.schemas.AccountSchema" ∧
    (∃ e, AccountViewMixin.get_serializer_cls (fun s => s)
      ⟨some "app.schemas.AccountSchema", none⟩ = Except.error e) := by
  have h := config_error_iff_cls_absent (fun s : String => s)
    (⟨some "app.schemas.AccountSchema", none⟩ : Config)
  exact ⟨h.2.2.1 "app.schemas.AccountSchema" rfl (by decide), h.2.1.mpr rfl⟩

/-- C2: ChangePasswordResource.post builds the payload mapping of
identifier (from the context account) and data (the request payload),
forwards exactly that payload to the change-password use case via
_process_request with no_serialization=True, and returns the result
unchanged. -/
theorem change_password_post_forwards (proc : ProcessRequest)
    (ctx : Context) (req : Request) (w : World) :
    ChangePasswordResource.post proc ctx req w =
      proc UseCaseCls.ChangeAccountPasswordUseCase
        RequestObjectCls.ChangeAccountPasswordRequestObject
        [("identifier", Value.nat ctx.account.id),
         ("data", Value.obj req.payload)] true w :=
  rfl

/-- C3: the identifier forwarded by ChangePasswordResource.post comes
only from the authenticated context: it is the context account id for
every request, it is the same for two requests with different
payloads, the forwarded payload is exactly payload_of, and any
identifier key inside the request payload top level is never used as
the identifier field. -/
theorem change_password_identifier_from_context (ctx : Context)
    (req1 req2 : Request) :
    List.lookup "identifier" (ChangePasswordResource.payload_of ctx req1) =
      some (Value.nat ctx.account.id) ∧
    List.lookup "identifier" (ChangePasswordResource.payload_of ctx req1) =
      List.lookup "identifier" (ChangePasswordResource.payload_of ctx req2) ∧
    (∀ proc w, ChangePasswordResource.post proc ctx req1 w =
      proc UseCaseCls.ChangeAccountPasswordUseCase
        RequestObjectCls.ChangeAccountPasswordRequestObject
        (ChangePasswordResource.payload_of ctx req1) true w) ∧
    (∀ v, ("identifier", v) ∈ req1.payload →
      List.lookup "identifier" (ChangePasswordResource.payload_of ctx req1) =
        some (Value.nat ctx.account.id)) := by
  refine ⟨rfl, rfl, fun proc w => rfl, fun v hv => rfl⟩

/-- C3 witness: even when the request payload itself carries an
identifier key, the forwarded identifier is the context account id. -/
theorem change_password_identifier_from_context_witness :
    List.lookup "identifier"
      (ChangePasswordResource.payload_of ⟨⟨1, "user@example.com"⟩⟩
        ⟨[("identifier", Value.nat 999)]⟩) = some (Value.nat 1) := by
  have h := change_password_identifier_from_context
    (⟨⟨1, "user@example.com"⟩⟩ : Context)
    (⟨[("identifier", Value.nat 999)]⟩ : Request) (⟨[]⟩ : Request)
  exact h.2.2.2 (Value.nat 999) (List.mem_singleton.mpr rfl)

/-- C4: LoginResource.post forwards request.payload to LoginUseCase
via _process_request with no_serialization=True; if and only if the
use-case response is an Entity instance the view returns the entity
serialized with to_dict, and otherwise it returns the response
unchanged. -/
theorem login_post_serializes_entity_iff (proc : ProcessRequest)
    (req : Request) (w : World) :
    ((LoginResource.post proc req w).2 =
      (proc UseCaseCls.LoginUseCase RequestObjectCls.LoginRequestObject
        req.payload true w).2) ∧
    (∀ e w2, proc UseCaseCls.LoginUseCase RequestObjectCls.LoginRequestObject
        req.payload true w = (UCResponse.entity e, w2) →
      LoginResource.post proc req w = (Sum.inl (Entity.to_dict e), w2)) ∧
    (∀ v w2, proc UseCaseCls.LoginUseCase RequestObjectCls.LoginRequestObject
        req.payload true w = (UCResponse.raw v, w2) →
      LoginResource.post proc req w = (Sum.inr (UCResponse.raw v), w2)) ∧
    ((∃ d, (LoginResource.post proc req w).1 = Sum.inl d) ↔
      (∃ e, (proc UseCaseCls.LoginUseCase RequestObjectCls.LoginRequestObject
        req.payload true w).1 = UCResponse.entity e)) := by
  rcases hp : proc UseCaseCls.LoginUseCase RequestObjectCls.LoginRequestObject
    req.payload true w with ⟨r, w2⟩
  cases r <;>
    simp [LoginResource.post, LoginResource.usecase_cls,
      LoginResource.request_object_cls, hp]

/-- C4 witness: with a use case returning an Entity the view returns
its dict, and with a use case returning a raw value the view returns
that response unchanged. -/
theorem login_post_serializes_entity_iff_witness :
    LoginResource.post proc_entity req0 w0 =
      (Sum.inl [("id", Value.nat 7)], w0) ∧
    LoginResource.post proc_pure req0 w0 =
      (Sum.inr (UCResponse.raw (Value.nat 0)), w0) := by
  have h1 := login_post_serializes_entity_iff proc_entity req0 w0
  have h2 := login_post_serializes_entity_iff proc_pure req0 w0
  exact ⟨h1.2.1 ⟨[("id", Value.nat 7)]⟩ w0 rfl,
    h2.2.2.1 (Value.nat 0) w0 rfl⟩

/-- C5: ResetPasswordResource.post builds the payload mapping of token
(the path parameter) and data (the request payload), forwards exactly
that payload to the reset-password use case via _process_request with
no_serialization=True, and returns the result unchanged. -/
theorem reset_password_post_forwards (proc : ProcessRequest)
    (token : String) (req : Request) (w : World) :
    ResetPasswordResource.post proc token req w =
      proc UseCaseCls.ResetPasswordUsecase
        RequestObjectCls.ResetPasswordRequestObject
        [("token", Value.str token), ("data", Value.obj req.payload)]
        true w :=
  rfl

/-- C6: LogoutResource.post forwards the payload mapping holding the
context account to LogoutUseCase via _process_request with
no_serialization=True and returns the result unchanged. -/
theorem logout_post_forwards (proc : ProcessRequest) (ctx : Context)
    (w : World) :
    LogoutResource.post proc ctx w =
      proc UseCaseCls.LogoutUseCase RequestObjectCls.LogoutRequestObject
        [("account", Value.acc ctx.account)] true w :=
  rfl

/-- C7: SendResetPasswordEmailResource.post forwards request.payload
unchanged (no keys added or removed) to the send-reset-email use case
via _process_request with no_serialization=True and returns the result
unchanged. -/
theorem send_reset_email_post_forwards (proc : ProcessRequest)
    (req : Request) (w : World) :
    SendResetPasswordEmailResource.post proc req w =
      proc UseCaseCls.SendResetPasswordEmailUsecase
        RequestObjectCls.SendResetPasswordEmailRequestObject
        req.payload true w :=
  rfl

/-- C8: each of the six account-management operations is delegated to
exactly one use-case class with its matching request-object class, and
the change-password, send-reset-email, reset-password, login, and
logout views define only a POST handler in this layer. -/
theorem delegation_wiring :
    CreateAccountResource.usecase_cls = UseCaseCls.CreateAccountUseCase ∧
    CreateAccountResource.request_object_cls =
      RequestObjectCls.CreateAccountRequestObject ∧
    UpdateAccountResource.usecase_cls = UseCaseCls.UpdateAccountUseCase ∧
    UpdateAccountResource.request_object_cls =
      RequestObjectCls.UpdateAccountRequestObject ∧
    ChangePasswordResource.usecase_cls =
      UseCaseCls.ChangeAccountPasswordUseCase ∧
    ChangePasswordResource.request_object_cls =
      RequestObjectCls.ChangeAccountPasswordRequestObject ∧
    SendResetPasswordEmailResource.usecase_cls =
      UseCaseCls.SendResetPasswordEmailUsecase ∧
    SendResetPasswordEmailResource.request_object_cls =
      RequestObjectCls.SendResetPasswordEmailRequestObject ∧
    ResetPasswordResource.usecase_cls = UseCaseCls.ResetPasswordUsecase ∧
    ResetPasswordResource.request_object_cls =
      RequestObjectCls.ResetPasswordRequestObject ∧
    LoginResource.usecase_cls = UseCaseCls.LoginUseCase ∧
    LoginResource.request_object_cls = RequestObjectCls.LoginRequestObject ∧
    LogoutResource.usecase_cls = UseCaseCls.LogoutUseCase ∧
    LogoutResource.request_object_cls =
      RequestObjectCls.LogoutRequestObject ∧
    ChangePasswordResource.defined_methods = [HttpMethod.post] ∧
    SendResetPasswordEmailResource.defined_methods = [HttpMethod.post] ∧
    ResetPasswordResource.defined_methods = [HttpMethod.post] ∧
    LoginResource.defined_methods = [HttpMethod.post] ∧
    LogoutResource.defined_methods = [HttpMethod.post] := by
  decide

/-- C9: every handler in this layer performs no state mutation of its
own: the final world is exactly the world produced by the single
use-case invocation, and whenever the use-case layer preserves the
world, every handler leaves accounts, tokens, and configuration
unchanged. -/
theorem handlers_frame (proc : ProcessRequest) (ctx : Context)
    (req : Request) (token : String) (w : World)
    (hpres : ∀ uc ro p ns w1, (proc uc ro p ns w1).2 = w1) :
    ((ChangePasswordResource.post proc ctx req w).2 =
      (proc UseCaseCls.ChangeAccountPasswordUseCase
        RequestObjectCls.ChangeAccountPasswordRequestObject
        (ChangePasswordResource.payload_of ctx req) true w).2) ∧
    (ChangePasswordResource.post proc ctx req w).2 = w ∧
    (SendResetPasswordEmailResource.post proc req w).2 = w ∧
    (ResetPasswordResource.post proc token req w).2 = w ∧
    (LoginResource.post proc req w).2 = w ∧
    (LogoutResource.post proc ctx w).2 = w ∧
    (ChangePasswordResource.post proc ctx req w).2.accounts = w.accounts ∧
    (ChangePasswordResource.post proc ctx req w).2.tokens = w.tokens ∧
    (ChangePasswordResource.post proc ctx req w).2.config = w.config := by
  have hlogin : (LoginResource.post proc req w).2 = w := by
    rcases hp : proc UseCaseCls.LoginUseCase
      RequestObjectCls.LoginRequestObject req.payload true w with ⟨r, w2⟩
    have h2 : w2 = w := by
      have h3 := hpres UseCaseCls.LoginUseCase
        RequestObjectCls.LoginRequestObject req.payload true w
      rw [hp] at h3
      exact h3
    cases r <;>
      simp [LoginResource.post, LoginResource.usecase_cls,
        LoginResource.request_object_cls, hp, h2]
  refine ⟨rfl, hpres _ _ _ _ _, hpres _ _ _ _ _, hpres _ _ _ _ _, hlogin,
    hpres _ _ _ _ _, congrArg World.accounts (hpres _ _ _ _ _),
    congrArg World.tokens (hpres _ _ _ _ _),
    congrArg World.config (hpres _ _ _ _ _)⟩

/-- C9 witness: with a world-preserving use-case layer, the
change-password and login handlers leave the world unchanged on sample
inputs. -/
theorem handlers_frame_witness :
    (ChangePasswordResource.post proc_pure ctx0 req0 w0).2 = w0 ∧
    (LoginResource.post proc_pure req0 w0).2 = w0 := by
  have h := handlers_frame proc_pure ctx0 req0 "tok" w0
    (fun _ _ _ _ _ => rfl)
  exact ⟨h.2.1, h.2.2.2.2.1⟩

/-- C10 counterexample: the is_authenticated guard is also absent from
LoginResource, which is neither password-reset endpoint, so the two
password-reset endpoints are not the only operations in this layer
reachable without an authenticated account. -/
theorem reset_only_unauthenticated_counterexample :
    Decorator.is_authenticated ∉ decoratorsOf ViewCls.login ∧
    ViewCls.login ≠ ViewCls.sendResetPasswordEmail ∧
    ViewCls.login ≠ ViewCls.resetPassword ∧
    ¬ (∀ v : ViewCls, v ≠ ViewCls.sendResetPasswordEmail →
        v ≠ ViewCls.resetPassword →
        Decorator.is_authenticated ∈ decoratorsOf v) := by
  decide

/-- C10 amended: the is_authenticated guard is present in the
decorators of the create, update, change-password, and logout views,
and absent exactly from the send-reset-email, reset-password, and
login views, which are therefore the only operations in this layer
reachable without an authenticated account. -/
theorem unauthenticated_views_characterization :
    Decorator.is_authenticated ∈ decoratorsOf ViewCls.create ∧
    Decorator.is_authenticated ∈ decoratorsOf ViewCls.update ∧
    Decorator.is_authenticated ∈ decoratorsOf ViewCls.changePassword ∧
    Decorator.is_authenticated ∈ decoratorsOf ViewCls.logout ∧
    (∀ v : ViewCls, Decorator.is_authenticated ∉ decoratorsOf v ↔
      (v = ViewCls.sendResetPasswordEmail ∨ v = ViewCls.resetPassword ∨
        v = ViewCls.login)) := by
  decide

end FlaskAuthentic
